import Mathlib

/-!
Verification development for the summaly bounded-retrieval pipeline
(src/utils/got.ts and src/index.ts), shallowly embedded in Lean.

Conventions:
* JavaScript `string | null` values are `Option String` (`none` = null).
* JavaScript truthiness of a `string | null` is `none`/`some ""` falsy.
* String processing is done on `List Char` (structural recursion) so that
  every definition evaluates by kernel reduction.
* `Number(s)` on a header string is modelled by `jsNumber`: `some n` for a
  string of decimal digits, `none` for NaN (non-numeric input); every
  comparison with NaN is false.
-/

set_option autoImplicit false

namespace Summaly

/-- JS truthiness of a `string | null` value: null and the empty string are
falsy. -/
def truthy : Option String → Bool
  | none => false
  | some s => !s.data.isEmpty

/-- Structure `PrioritizedReference<T>` from src/utils/got.ts: a slot holding a content
value and the priority at which it was written. -/
structure PrioritizedReference (T : Type) where
  priority : Nat
  content : T
  deriving Repr, DecidableEq

/-- Function `assign` from src/utils/got.ts, instantiated at `T = string | null`:
`if (content && target.priority <= priority) { target.priority = priority;
target.content = content; }`.  The TS function mutates `target`; here the
updated slot is returned. -/
def assign (target : PrioritizedReference (Option String)) (priority : Nat)
    (content : Option String) : PrioritizedReference (Option String) :=
  if truthy content && decide (target.priority ≤ priority) then
    { priority := priority, content := content }
  else
    target

/-- Padding characters stripped from a charset hint: whitespace and quotes
(char code 39 is the single quote; the spec requires hints wrapped in
whitespace/quotes to be trimmed before comparison). -/
def isHintPadding (c : Char) : Bool :=
  c = ' ' || c = '\t' || c = '\n' || c = '\r' || c = '"' || c.toNat = 39

def trimHintL (s : List Char) : List Char :=
  ((s.dropWhile isHintPadding).reverse.dropWhile isHintPadding).reverse

def trimSpacesL (s : List Char) : List Char :=
  ((s.dropWhile Char.isWhitespace).reverse.dropWhile Char.isWhitespace).reverse

def toLowerL (s : List Char) : List Char :=
  s.map Char.toLower

/-- Splits a character list at every occurrence of the separator. -/
def splitOnChar (sep : Char) : List Char → List (List Char)
  | [] => [[]]
  | c :: rest =>
    let r := splitOnChar sep rest
    if c = sep then [] :: r
    else
      match r with
      | [] => [[c]]
      | piece :: pieces => (c :: piece) :: pieces

/-- Modelled from the whatwg-mimetype dependency (not under src/):
`MIMEType.parse(value)?.parameters.get('charset') ?? null`.  Splits the header
value at `;`, requires a `type/subtype` shape, and returns the value of the
first `charset=` parameter (parameter names compared case-insensitively),
with padding trimmed. -/
def getCharset (value : Option String) : Option String :=
  match value with
  | none => none
  | some v =>
    match splitOnChar ';' v.data with
    | [] => none
    | ty :: params =>
      if (splitOnChar '/' ty).length = 2 then
        params.findSome? fun p =>
          let q := trimSpacesL p
          if "charset=".data.isPrefixOf (toLowerL q) then
            some (trimHintL (q.drop 8)).asString
          else none
      else none

/-- The Shift-JIS aliases that src/utils/encoding.ts maps to the CP932 codec,
per the spec (matched case-insensitively). -/
def sjisAliases : List String :=
  ["shift_jis", "shift-jis", "windows-31j", "x-sjis"]

/-- Modelled from the spec: the set of labels recognized by the decoding
library used by src/utils/encoding.ts (the file itself is not under src/).
A representative concrete set of standard labels; `"totally-not-a-charset"`
is, as in the spec's example, not recognized. -/
def recognizedLabels : List String :=
  ["utf-8", "utf8", "euc-jp", "euc-kr", "iso-8859-1", "windows-1252",
   "latin1", "utf-16le", "utf-16be", "gbk", "big5", "cp932", "ascii"]

/-- Modelled from the spec: `toEncoding` of src/utils/encoding.ts (not under
src/).  Trims whitespace/quotes, lowercases, maps the Shift-JIS aliases to
`cp932`, returns any other recognized label unchanged, and yields `none` for
null, empty, or unrecognized labels. -/
def toEncoding (label : Option String) : Option String :=
  match label with
  | none => none
  | some l =>
    let t := (toLowerL (trimHintL l.data)).asString
    if t.data.isEmpty then none
    else if sjisAliases.contains t then some "cp932"
    else if recognizedLabels.contains t then some t
    else none

/-- One element observed by the HTMLRewriter element handler in `scpaping`
(src/unnamed/part_001): its tag name, `id` attribute, and for `meta`
elements the `charset`, `http-equiv` and `content` attributes
(`none` = attribute absent). -/
structure Elem where
  tag : String
  id : Option String := none
  charsetAttr : Option String := none
  httpEquiv : Option String := none
  contentAttr : Option String := none
  deriving Repr, DecidableEq

/-- The charset-collecting part of the `scpaping` element handler
(src/unnamed/part_001 lines 96-104): on a `meta` element, a truthy `charset`
attribute is assigned at priority 3, and when `http-equiv` lowercases to
`content-type`, the charset parameter of the `content` attribute is assigned
at priority 2. -/
def handleElementCharset (slot : PrioritizedReference (Option String))
    (e : Elem) : PrioritizedReference (Option String) :=
  if e.tag = "meta" then
    let slot1 :=
      if truthy e.charsetAttr then assign slot 3 e.charsetAttr else slot
    if e.httpEquiv.map (fun s => (toLowerL s.data).asString) = some "content-type" then
      assign slot1 2 (getCharset e.contentAttr)
    else slot1
  else slot

/-- The prioritized charset slot after the streaming pass over the document's
elements, starting from `{ priority: 0, content: null }`. -/
def pickedAfterDoc (elems : List Elem) : PrioritizedReference (Option String) :=
  elems.foldl handleElementCharset { priority := 0, content := none }

/-- The charset slot after the document pass and the priority-1 write of the
response header's charset parameter (src/unnamed/part_001 line 116). -/
def pickedFinal (elems : List Elem) (headerContentType : Option String) :
    PrioritizedReference (Option String) :=
  assign (pickedAfterDoc elems) 1 (getCharset headerContentType)

/-- Charset resolution in `scpaping` (src/unnamed/part_001 lines 115-121):
`toEncoding` of the slot's winner, else `toEncoding` of the detection result
(`detected` stands for `detectEncoding(...)` on the transformed bytes), else
`utf-8`. -/
def resolveCharset (elems : List Elem) (headerContentType : Option String)
    (detected : Option String) : String :=
  let charset := toEncoding (pickedFinal elems headerContentType).content
  let charset :=
    match charset with
    | some c => some c
    | none => toEncoding detected
  charset.getD "utf-8"

/-! ### Streaming tag stripper

The HTMLRewriter element handler of `scpaping` (src/unnamed/part_001 lines
106-111) first calls `element.remove()` for `script`/`template`/`style`/`svg`
tags, and then calls `element.removeAndKeepContent()` unless the element is
allow-listed (tag `title`/`link`/`meta`, or id `title`/`productDescription`/
`landingImage`).  In the underlying rewriter (lol-html), `remove()` sets the
content-removal flag, which a later `removeAndKeepContent()` on the same
element does not clear, so removal of the subtree wins when both run.  The
document is modelled as a tree of nodes. -/

inductive HNode where
  | elem (tag : String) (id : Option String) (children : List HNode)
  | text (s : String)

/-- Tags whose whole subtree is removed (`element.remove()`). -/
def removedTags : List String := ["script", "template", "style", "svg"]

/-- The allow-list guard of the second `if`: the element keeps its own tags
exactly when its tag is `title`/`link`/`meta` or its id is `title`/
`productDescription`/`landingImage`. -/
def keepsOwnTags (tag : String) (id : Option String) : Bool :=
  tag = "title" || tag = "link" || tag = "meta" ||
  id = some "title" || id = some "productDescription" || id = some "landingImage"

mutual

/-- The output of the streaming pass for one node: removed subtree, kept
element, or unwrapped contents. -/
def stripNode : HNode → List HNode
  | .text s => [.text s]
  | .elem tag id children =>
    if removedTags.contains tag then []
    else if keepsOwnTags tag id then [.elem tag id (stripList children)]
    else stripList children

/-- The streaming pass over a sequence of sibling nodes. -/
def stripList : List HNode → List HNode
  | [] => []
  | n :: rest => stripNode n ++ stripList rest

end

/-! ### Bounded fetcher: `getResponse` (src/unnamed/part_001 lines 155-239)

The response validations run in source order: status, content-type filter,
declared content length; only then is the body piped through the size-guard
transform.  `Number(header)` is modelled by `jsNumber` (`none` = NaN), and
the regular-expression type filter by a boolean predicate on the header
value. -/

def DEFAULT_MAX_RESPONSE_SIZE : Nat := 10 * 1024 * 1024

/-- Arguments of `getResponse` relevant to validation (`GotOptions`). -/
structure GotArgs where
  typeFilter : Option (String → Bool) := none
  contentLengthLimit : Option Nat := none
  contentLengthRequired : Bool := false

/-- The response metadata `getResponse` inspects before touching the body. -/
structure ResponseMeta where
  ok : Bool
  status : Nat
  statusText : String
  contentType : Option String := none
  contentLength : Option String := none

/-- The typed errors raised by `getResponse` and the size-guard transform. -/
inductive FetchError where
  | statusError (status : Nat) (statusText : String)
  | typeRejected (contentType : Option String)
  | sizeExceededDeclared (size maxSize : Nat)
  | contentLengthMissing
  | sizeExceededStreamed (transferred maxSize : Nat)
  deriving Repr, DecidableEq

/-- Model of `Number(s)` on a header string: `some n` for a nonempty string of decimal
digits, `none` (NaN) otherwise.  The model covers the integer-valued and
non-numeric header strings the claims are about. -/
def jsNumber (s : String) : Option Nat :=
  if s.data ≠ [] ∧ s.data.all Char.isDigit then
    some (s.data.foldl (fun acc c => 10 * acc + (c.toNat - 48)) 0)
  else none

/-- Comparison `NaN > max` is false: a declared size only exceeds the limit when it
parses to a number greater than the limit. -/
def declaredExceeds (declared : Option Nat) (maxSize : Nat) : Bool :=
  match declared with
  | some n => decide (n > maxSize)
  | none => false

/-- Check `args.typeFilter && !contentType?.match(args.typeFilter)`: with a filter
configured, an absent header rejects (optional chaining yields undefined,
whose negation is true), otherwise the predicate decides. -/
def typeFilterRejects (filter : Option (String → Bool)) (ct : Option String) : Bool :=
  match filter with
  | none => false
  | some f =>
    match ct with
    | none => true
    | some s => !f s

/-- The header validations of `getResponse`, in source order (lines 176-199):
non-2xx status, content-type filter, declared `content-length` against the
limit (`if (contentLength)` is a truthiness test, so an empty header falls to
the `contentLengthRequired` branch). -/
def checkResponse (args : GotArgs) (res : ResponseMeta) : Option FetchError :=
  if !res.ok then some (.statusError res.status res.statusText)
  else if typeFilterRejects args.typeFilter res.contentType then
    some (.typeRejected res.contentType)
  else
    match res.contentLength with
    | some cl =>
      if cl.data ≠ [] then
        let maxSize := args.contentLengthLimit.getD DEFAULT_MAX_RESPONSE_SIZE
        if declaredExceeds (jsNumber cl) maxSize then
          some (.sizeExceededDeclared ((jsNumber cl).getD 0) maxSize)
        else none
      else if args.contentLengthRequired then some .contentLengthMissing
      else none
    | none =>
      if args.contentLengthRequired then some .contentLengthMissing
      else none

/-- Result of running the body through the size-guard `TransformStream`. -/
structure StreamResult where
  delivered : List (List Nat)
  error : Option FetchError
  sourceCancelled : Bool
  deriving Repr, DecidableEq

/-- The size-guard transform (lines 204-221): each chunk's length is added to
`transferred` before the check, the chunk is enqueued only if the running
total stays within `maxSize`, and a throw errors the pipe — which, under the
default `pipeThrough` semantics, cancels the source stream (the in-flight
transfer). -/
def runSizeGuard (maxSize transferred : Nat) : List (List Nat) → StreamResult
  | [] => { delivered := [], error := none, sourceCancelled := false }
  | chunk :: rest =>
    let tr := transferred + chunk.length
    if tr > maxSize then
      { delivered := [],
        error := some (.sizeExceededStreamed tr maxSize),
        sourceCancelled := true }
    else
      let r := runSizeGuard maxSize tr rest
      { r with delivered := chunk :: r.delivered }

/-- Outcome of `getResponse` as observed by the caller: the error (if any),
the body chunks delivered downstream, and whether the body was handed to the
downstream consumer at all. -/
structure FetchOutcome where
  error : Option FetchError
  delivered : List (List Nat)
  bodyStreamed : Bool
  sourceCancelled : Bool
  deriving Repr, DecidableEq

/-- Run of `getResponse` on a response with the given body chunks: a validation
error aborts before the body is wrapped or consumed; otherwise the body runs
through the size-guard transform. -/
def getResponseRun (args : GotArgs) (res : ResponseMeta)
    (chunks : List (List Nat)) : FetchOutcome :=
  match checkResponse args res with
  | some e =>
    { error := some e, delivered := [], bodyStreamed := false,
      sourceCancelled := true }
  | none =>
    let maxSize := args.contentLengthLimit.getD DEFAULT_MAX_RESPONSE_SIZE
    let r := runSizeGuard maxSize 0 chunks
    { error := r.error, delivered := r.delivered, bodyStreamed := true,
      sourceCancelled := r.sourceCancelled }

/-- Total byte length of a chunk sequence. -/
def cumLen (chunks : List (List Nat)) : Nat :=
  (chunks.map List.length).sum

/-! ### Timer timeline of `getResponse` (src/unnamed/part_001 lines 155-238)

Discrete-time model of the two abort timers.  `setTimeout` arms a timer at
time 0 with the given deadline; the timer aborts the shared controller when
its deadline passes before the timer is cleared.  On the success path the
response timer is cleared when the headers arrive (line 174) and — crucially
— the operation timer is cleared at line 227, when `getResponse` returns the
response wrapper, which happens as soon as the headers have been validated
and *before* the lazily-consumed body stream is read by the caller. -/

/-- What the server does: when the response headers arrive, and when (if
ever) the body finishes transferring (`none` = the body stalls forever). -/
structure ServerBehavior where
  headersAt : Nat
  bodyDoneAt : Option Nat
  deriving Repr, DecidableEq

/-- An armed timer with deadline `deadline`, cleared at time `clearedAt`,
fires iff its deadline passes strictly before it is cleared. -/
def timerFires (deadline clearedAt : Nat) : Bool :=
  decide (deadline < clearedAt)

/-- On the success path both `clearTimeout` calls run at the time the headers
have arrived and been validated (lines 174 and 227); the body has not been
consumed yet at that point. -/
def successOpTimerClearTime (headersAt : Nat) : Nat := headersAt

/-- Overall outcome of one `getResponse` call together with its caller's
consumption of the body. -/
inductive CallOutcome where
  | timeoutAt (t : Nat)
  | failedValidation
  | completedAt (t : Nat)
  | hangs
  deriving Repr, DecidableEq

/-- The call timeline: if either deadline passes while the headers are still
awaited, the controller aborts and the fetch rejects at the earlier deadline;
otherwise the validations run (a failure clears both timers in the catch
block); on success both timers are cleared at `headersAt` and the caller then
consumes the body with no timer armed, so a stalling body hangs and a slow
body completes whenever the server finishes. -/
def getResponseCall (respT opT : Nat) (sv : ServerBehavior)
    (validationsOk : Bool) : CallOutcome :=
  if timerFires respT sv.headersAt || timerFires opT sv.headersAt then
    .timeoutAt (min respT opT)
  else if !validationsOk then
    .failedValidation
  else
    -- operation timer cleared at line 227, before any body read:
    let opCleared := successOpTimerClearTime sv.headersAt
    match sv.bodyDoneAt with
    | some t =>
      if timerFires opT opCleared then .timeoutAt opT else .completedAt t
    | none =>
      if timerFires opT opCleared then .timeoutAt opT else .hangs

/-! ### `summaly` effective options (src/index.ts / src/unnamed/part_002)

`const opts = Object.assign(summalyDefaultOptions, options);` merges the
caller's options *into the module-level `summalyDefaultOptions` object* and
uses that same object as the call's effective options, so the defaults object
carries every earlier call's options forward.  Option objects are records of
optional properties (`none` = property absent); `lang` is itself nullable. -/

/-- A caller-supplied `SummalyOptions` object: each field is `some v` when
the property is present with value `v`. -/
structure SummalyCallOptions where
  lang : Option (Option String) := none
  followRedirects : Option Bool := none
  userAgent : Option String := none
  deriving Repr, DecidableEq

/-- The state of the (mutable, module-level) `summalyDefaultOptions` object:
the present property values. -/
structure EffectiveOptions where
  lang : Option String
  followRedirects : Bool
  userAgent : Option String
  deriving Repr, DecidableEq

/-- Initial `summalyDefaultOptions = { lang: null, followRedirects: true,
plugins: [] }` as initially defined at module load. -/
def summalyDefaultOptions0 : EffectiveOptions :=
  { lang := none, followRedirects := true, userAgent := none }

/-- Semantics of `Object.assign(target, source)`: each property present on the source
overwrites the target's; the mutated target is returned. -/
def objectAssign (target : EffectiveOptions) (src : SummalyCallOptions) :
    EffectiveOptions :=
  { lang := src.lang.getD target.lang,
    followRedirects := src.followRedirects.getD target.followRedirects,
    userAgent :=
      match src.userAgent with
      | some s => some s
      | none => target.userAgent }

/-- One `summaly` call's option handling: the effective options of this call
and the defaults object's state afterwards are the same merged object
(`Object.assign` mutates its first argument). -/
def summalyOptsStep (defaults : EffectiveOptions) (options : SummalyCallOptions) :
    EffectiveOptions × EffectiveOptions :=
  let opts := objectAssign defaults options
  (opts, opts)

/-- The effective options each call in a sequence of `summaly` calls runs
with, starting from a freshly loaded module. -/
def effectiveOptsOfCalls (calls : List SummalyCallOptions) : List EffectiveOptions :=
  (calls.foldl
    (fun (acc : List EffectiveOptions × EffectiveOptions) o =>
      let r := summalyOptsStep acc.2 o
      (acc.1 ++ [r.1], r.2))
    ([], summalyDefaultOptions0)).1

/-! ### Helper lemmas -/

theorem truthy_some_of_ne_nil (s : String) (h : s.data ≠ []) :
    truthy (some s) = true := by
  simp [truthy, List.isEmpty_iff, h]

theorem assign_applies (t : PrioritizedReference (Option String)) (p : Nat)
    (c : Option String) (h1 : truthy c = true) (h2 : t.priority ≤ p) :
    assign t p c = { priority := p, content := c } := by
  simp [assign, h1, h2]

theorem assign_skips (t : PrioritizedReference (Option String)) (p : Nat)
    (c : Option String) (h : truthy c = false ∨ p < t.priority) :
    assign t p c = t := by
  rcases h with h | h
  · simp [assign, h]
  · have hle : ¬ t.priority ≤ p := Nat.not_le.2 h
    simp [assign, hle]

theorem handleElementCharset_metaCharset (slot : PrioritizedReference (Option String))
    (x : String) (hx : truthy (some x) = true) :
    handleElementCharset slot { tag := "meta", charsetAttr := some x } =
      assign slot 3 (some x) := by
  simp [handleElementCharset, hx]

theorem handleElementCharset_httpEquiv (slot : PrioritizedReference (Option String))
    (c : Option String) :
    handleElementCharset slot
      { tag := "meta", httpEquiv := some "content-type", contentAttr := c } =
      assign slot 2 (getCharset c) := by
  have hct : (toLowerL "content-type".data).asString = "content-type" := by decide
  simp [handleElementCharset, truthy, hct]

/-! ### Claim theorems -/

/-- C4: a write into a `PrioritizedReference` slot takes effect (the slot
becomes the incoming priority/content) if and only if the incoming priority
is ≥ the slot's current priority and the incoming content is
non-null/non-empty; otherwise the slot is unchanged; and at equal priority
the later of two effective writes wins. -/
theorem C4_prioritized_write_semantics (t : PrioritizedReference (Option String))
    (p : Nat) (c d : Option String) :
    (truthy c = true → t.priority ≤ p →
      assign t p c = { priority := p, content := c })
    ∧ (truthy c = false ∨ p < t.priority → assign t p c = t)
    ∧ (truthy c = true → truthy d = true → t.priority ≤ p →
      assign (assign t p c) p d = { priority := p, content := d }) := by
  refine ⟨fun h1 h2 => assign_applies t p c h1 h2,
          fun h => assign_skips t p c h,
          fun hc hd hp => ?_⟩
  rw [assign_applies t p c hc hp]
  exact assign_applies _ p d hd (Nat.le_refl p)

/-- Witness for C4 at concrete slots: an equal-or-higher-priority non-empty
write applies, an empty or lower-priority write is ignored, and the later of
two equal-priority writes wins. -/
theorem C4_prioritized_write_semantics_witness :
    assign { priority := 1, content := some "a" } 2 (some "b") =
      { priority := 2, content := some "b" }
    ∧ assign { priority := 3, content := some "a" } 2 (some "b") =
      { priority := 3, content := some "a" }
    ∧ assign (assign { priority := 1, content := some "a" } 2 (some "b")) 2 (some "c") =
      { priority := 2, content := some "c" } :=
  ⟨(C4_prioritized_write_semantics { priority := 1, content := some "a" } 2
      (some "b") (some "b")).1 (by decide) (by decide),
   (C4_prioritized_write_semantics { priority := 3, content := some "a" } 2
      (some "b") (some "b")).2.1 (Or.inr (by decide)),
   (C4_prioritized_write_semantics { priority := 1, content := some "a" } 2
      (some "b") (some "c")).2.2 (by decide) (by decide) (by decide)⟩

theorem assign_priority_cases (t : PrioritizedReference (Option String))
    (p : Nat) (c : Option String) :
    (assign t p c).priority = p ∨ assign t p c = t := by
  unfold assign
  split
  · exact Or.inl rfl
  · exact Or.inr rfl

/-- C3: in a document with a meta `charset` attribute `x`, a meta
`http-equiv` content-type charset source, and a header charset, the picked
candidate is `x` (priority 3 beats 2 beats 1), in either document order of
the two meta elements, and the resolved encoding is `x`'s; when no candidate
yields a recognized encoding and detection yields none, resolution falls
through to UTF-8. -/
theorem C3_charset_priority_order (x : String) (hx : truthy (some x) = true)
    (cY hdr d : Option String) (e : String) (he : toEncoding (some x) = some e) :
    (pickedFinal [{ tag := "meta", charsetAttr := some x },
        { tag := "meta", httpEquiv := some "content-type", contentAttr := cY }]
        hdr).content = some x
    ∧ resolveCharset [{ tag := "meta", charsetAttr := some x },
        { tag := "meta", httpEquiv := some "content-type", contentAttr := cY }]
        hdr d = e
    ∧ resolveCharset
        [{ tag := "meta", httpEquiv := some "content-type", contentAttr := cY },
         { tag := "meta", charsetAttr := some x }]
        hdr d = e
    ∧ (∀ (elems : List Elem) (hdr2 d2 : Option String),
        toEncoding (pickedFinal elems hdr2).content = none →
        toEncoding d2 = none → resolveCharset elems hdr2 d2 = "utf-8") := by
  have h3 : pickedAfterDoc
      [{ tag := "meta", charsetAttr := some x },
       { tag := "meta", httpEquiv := some "content-type", contentAttr := cY }] =
      { priority := 3, content := some x } := by
    simp only [pickedAfterDoc, List.foldl]
    rw [handleElementCharset_metaCharset _ x hx,
      assign_applies _ _ _ hx (by decide),
      handleElementCharset_httpEquiv]
    exact assign_skips _ _ _ (Or.inr (by show (2:Nat) < 3; decide))
  have h3r : pickedAfterDoc
      [{ tag := "meta", httpEquiv := some "content-type", contentAttr := cY },
       { tag := "meta", charsetAttr := some x }] =
      { priority := 3, content := some x } := by
    simp only [pickedAfterDoc, List.foldl]
    rw [handleElementCharset_httpEquiv, handleElementCharset_metaCharset _ x hx]
    rcases assign_priority_cases { priority := 0, content := none } 2 (getCharset cY)
      with hp | hp
    · exact assign_applies _ _ _ hx (le_of_eq_of_le hp (by decide))
    · rw [hp]
      exact assign_applies _ _ _ hx (by decide)
  have hf : pickedFinal
      [{ tag := "meta", charsetAttr := some x },
       { tag := "meta", httpEquiv := some "content-type", contentAttr := cY }] hdr =
      { priority := 3, content := some x } := by
    rw [pickedFinal, h3]
    exact assign_skips _ _ _ (Or.inr (by show (1:Nat) < 3; decide))
  have hfr : pickedFinal
      [{ tag := "meta", httpEquiv := some "content-type", contentAttr := cY },
       { tag := "meta", charsetAttr := some x }] hdr =
      { priority := 3, content := some x } := by
    rw [pickedFinal, h3r]
    exact assign_skips _ _ _ (Or.inr (by show (1:Nat) < 3; decide))
  refine ⟨by rw [hf], by simp [resolveCharset, hf, he], by simp [resolveCharset, hfr, he],
    fun elems hdr2 d2 h1 h2 => by simp [resolveCharset, h1, h2]⟩

/-- Witness for C3: `Shift_JIS` as the meta charset attribute beats an
`euc-jp` http-equiv value and a `utf-8` header charset and resolves to the
CP932 codec; and a document whose every candidate is unrecognized resolves to
UTF-8. -/
theorem C3_charset_priority_order_witness :
    resolveCharset
      [{ tag := "meta", charsetAttr := some "Shift_JIS" },
       { tag := "meta", httpEquiv := some "content-type", contentAttr := some "text/html; charset=euc-jp" }]
      (some "text/html; charset=utf-8") none = "cp932"
    ∧ resolveCharset [{ tag := "meta", charsetAttr := some "bogus-label" }]
      (some "text/html; charset=also-bogus") none = "utf-8" :=
  ⟨(C3_charset_priority_order "Shift_JIS" (by decide)
      (some "text/html; charset=euc-jp") (some "text/html; charset=utf-8")
      none "cp932" (by decide)).2.1,
   (C3_charset_priority_order "utf-8" (by decide) none none none "utf-8"
      (by decide)).2.2.2
     [{ tag := "meta", charsetAttr := some "bogus-label" }]
     (some "text/html; charset=also-bogus") none (by decide) (by decide)⟩

/-- C2 counterexample: with an unrecognized priority-3 meta charset, a
recognized priority-2 http-equiv charset (`shift_jis`, which maps to CP932),
and a recognized priority-1 header charset (`euc-jp`), resolution yields
`utf-8` — it does not fall through to the priority-2 value (nor the header),
because the single slot retains only the unrecognized winner. -/
theorem C2_fallthrough_counterexample :
    resolveCharset
      [{ tag := "meta", charsetAttr := some "totally-not-a-charset" },
       { tag := "meta", httpEquiv := some "content-type", contentAttr := some "text/html; charset=shift_jis" }]
      (some "text/html; charset=euc-jp") none = "utf-8"
    ∧ toEncoding (getCharset (some "text/html; charset=shift_jis")) = some "cp932"
    ∧ toEncoding (getCharset (some "text/html; charset=euc-jp")) = some "euc-jp" := by
  decide

/-- C2 (amended): when the label that wins the prioritized slot is not
recognized by the decoding library, resolution falls through directly to
statistical detection and then UTF-8, skipping any lower-priority hint
candidates that the single slot discarded. -/
theorem C2_unrecognized_label_falls_to_detection (elems : List Elem)
    (hdr d : Option String)
    (h : toEncoding (pickedFinal elems hdr).content = none) :
    resolveCharset elems hdr d = (toEncoding d).getD "utf-8" := by
  simp [resolveCharset, h]

/-- Witness for the amended C2: an unrecognized meta charset falls through to
the detection result. -/
theorem C2_unrecognized_label_falls_to_detection_witness :
    toEncoding (pickedFinal [{ tag := "meta", charsetAttr := some "bogus-charset" }] none).content = none
    ∧ resolveCharset [{ tag := "meta", charsetAttr := some "bogus-charset" }]
        none (some "euc-jp") = (toEncoding (some "euc-jp")).getD "utf-8" :=
  ⟨by decide,
   C2_unrecognized_label_falls_to_detection
     [{ tag := "meta", charsetAttr := some "bogus-charset" }] none
     (some "euc-jp") (by decide)⟩

/-- C7: in the streaming pass, an element whose tag is `script`, `template`,
`style`, or `svg` is removed together with its entire subtree; any other
element is unwrapped (tags stripped, inner content flows through) unless its
tag is `title`, `link`, or `meta` or its id is `title`, `productDescription`,
or `landingImage`, in which case it is kept. -/
theorem C7_strip_per_element (tag : String) (id : Option String)
    (children : List HNode) :
    (tag ∈ removedTags → stripNode (.elem tag id children) = [])
    ∧ (tag ∉ removedTags → keepsOwnTags tag id = false →
      stripNode (.elem tag id children) = stripList children)
    ∧ (tag ∉ removedTags → keepsOwnTags tag id = true →
      stripNode (.elem tag id children) = [.elem tag id (stripList children)]) := by
  refine ⟨fun h => ?_, fun h1 h2 => ?_, fun h1 h2 => ?_⟩
  · simp [stripNode, h]
  · simp [stripNode, h1, h2]
  · simp [stripNode, h1, h2]

/-- Witness for C7: a `script` subtree is removed, a plain `div` is
unwrapped, and a `title` element is kept. -/
theorem C7_strip_per_element_witness :
    stripNode (.elem "script" none [.text "var x = 1"]) = []
    ∧ stripNode (.elem "div" none [.text "hello"]) = stripList [.text "hello"]
    ∧ stripNode (.elem "title" none [.text "t"]) =
        [.elem "title" none (stripList [.text "t"])] :=
  ⟨(C7_strip_per_element "script" none [.text "var x = 1"]).1 (by decide),
   (C7_strip_per_element "div" none [.text "hello"]).2.1 (by decide) (by decide),
   (C7_strip_per_element "title" none [.text "t"]).2.2 (by decide) (by decide)⟩

theorem jsNumber_data_ne_nil (cl : String) (n : Nat) (h : jsNumber cl = some n) :
    cl.data ≠ [] := by
  unfold jsNumber at h
  split at h
  · next hc => exact hc.1
  · exact absurd h (by simp)

theorem cumLen_cons (c : List Nat) (l : List (List Nat)) :
    cumLen (c :: l) = c.length + cumLen l := by
  simp [cumLen]

theorem cumLen_take_mono (l : List (List Nat)) :
    ∀ j k, j ≤ k → cumLen (l.take j) ≤ cumLen (l.take k) := by
  induction l with
  | nil => intro j k _; simp
  | cons c rest ih =>
    intro j k hjk
    cases j with
    | zero => simp [cumLen]
    | succ j' =>
      cases k with
      | zero => exact absurd hjk (Nat.not_succ_le_zero j')
      | succ k' =>
        simp only [List.take, cumLen_cons]
        exact Nat.add_le_add_left (ih j' k' (Nat.le_of_succ_le_succ hjk)) _

/-- The size-guard transform errors at the first chunk that takes the running
total past the limit: the delivered chunks are exactly the prefix before that
chunk, the reported transferred count is the crossing total, and the source
is cancelled. -/
theorem runSizeGuard_overflow (maxSize : Nat) :
    ∀ (chunks : List (List Nat)) (acc : Nat), acc ≤ maxSize →
    maxSize < acc + cumLen chunks →
    ∃ k, k < chunks.length
      ∧ acc + cumLen (chunks.take k) ≤ maxSize
      ∧ maxSize < acc + cumLen (chunks.take (k+1))
      ∧ runSizeGuard maxSize acc chunks =
          { delivered := chunks.take k,
            error := some (.sizeExceededStreamed (acc + cumLen (chunks.take (k+1))) maxSize),
            sourceCancelled := true } := by
  intro chunks
  induction chunks with
  | nil =>
    intro acc hacc hover
    simp [cumLen] at hover
    omega
  | cons c rest ih =>
    intro acc hacc hover
    by_cases hc : maxSize < acc + c.length
    · refine ⟨0, by simp, by simpa [cumLen], by simpa [cumLen_cons, cumLen], ?_⟩
      simp only [runSizeGuard]
      rw [if_pos (by omega : acc + c.length > maxSize)]
      simp [cumLen_cons, cumLen]
    · push_neg at hc
      have hover' : maxSize < (acc + c.length) + cumLen rest := by
        rw [cumLen_cons] at hover
        omega
      obtain ⟨k, hk1, hk2, hk3, hk4⟩ := ih (acc + c.length) hc hover'
      refine ⟨k + 1, by simpa using Nat.succ_lt_succ hk1, ?_, ?_, ?_⟩
      · simpa [List.take, cumLen_cons, Nat.add_assoc] using hk2
      · simpa [List.take, cumLen_cons, Nat.add_assoc] using hk3
      · simp only [runSizeGuard]
        rw [if_neg (by omega : ¬ acc + c.length > maxSize), hk4]
        simp [List.take, cumLen_cons, Nat.add_assoc]

/-- C5: when the cumulative streamed byte count exceeds the configured
maximum, `getResponse` fails the stream with a size-exceeded error at the
chunk where the running total first exceeds the limit, delivers only the
chunks before it downstream, and cancels the in-flight source transfer. -/
theorem C5_streamed_size_cap (args : GotArgs) (res : ResponseMeta)
    (chunks : List (List Nat))
    (hok : checkResponse args res = none)
    (h : args.contentLengthLimit.getD DEFAULT_MAX_RESPONSE_SIZE < cumLen chunks) :
    ∃ k, k < chunks.length
      ∧ (∀ j, j ≤ k → cumLen (chunks.take j) ≤
          args.contentLengthLimit.getD DEFAULT_MAX_RESPONSE_SIZE)
      ∧ args.contentLengthLimit.getD DEFAULT_MAX_RESPONSE_SIZE <
          cumLen (chunks.take (k+1))
      ∧ getResponseRun args res chunks =
          { error := some (.sizeExceededStreamed (cumLen (chunks.take (k+1)))
              (args.contentLengthLimit.getD DEFAULT_MAX_RESPONSE_SIZE)),
            delivered := chunks.take k,
            bodyStreamed := true,
            sourceCancelled := true } := by
  obtain ⟨k, hk1, hk2, hk3, hk4⟩ :=
    runSizeGuard_overflow (args.contentLengthLimit.getD DEFAULT_MAX_RESPONSE_SIZE)
      chunks 0 (Nat.zero_le _) (by simpa)
  refine ⟨k, hk1, fun j hj => ?_, by simpa using hk3, ?_⟩
  · exact Nat.le_trans (cumLen_take_mono chunks j k hj) (by simpa using hk2)
  · simp only [getResponseRun, hok]
    rw [hk4]
    simp

/-- Witness for C5 at limit 5 and chunks of 3+3 bytes: the second chunk
crosses the limit, only the first is delivered, and the source is
cancelled. -/
theorem C5_streamed_size_cap_witness :
    checkResponse { contentLengthLimit := some 5 } { ok := true, status := 200, statusText := "OK" } = none
    ∧ ({ contentLengthLimit := some 5 } : GotArgs).contentLengthLimit.getD DEFAULT_MAX_RESPONSE_SIZE < cumLen [[1, 1, 1], [2, 2, 2]]
    ∧ ∃ k, k < ([[1, 1, 1], [2, 2, 2]] : List (List Nat)).length
      ∧ (∀ j, j ≤ k → cumLen (([[1, 1, 1], [2, 2, 2]] : List (List Nat)).take j) ≤
          ({ contentLengthLimit := some 5 } : GotArgs).contentLengthLimit.getD DEFAULT_MAX_RESPONSE_SIZE)
      ∧ ({ contentLengthLimit := some 5 } : GotArgs).contentLengthLimit.getD DEFAULT_MAX_RESPONSE_SIZE <
          cumLen (([[1, 1, 1], [2, 2, 2]] : List (List Nat)).take (k+1))
      ∧ getResponseRun { contentLengthLimit := some 5 }
          { ok := true, status := 200, statusText := "OK" } [[1, 1, 1], [2, 2, 2]] =
          { error := some (.sizeExceededStreamed
              (cumLen (([[1, 1, 1], [2, 2, 2]] : List (List Nat)).take (k+1)))
              (({ contentLengthLimit := some 5 } : GotArgs).contentLengthLimit.getD DEFAULT_MAX_RESPONSE_SIZE)),
            delivered := ([[1, 1, 1], [2, 2, 2]] : List (List Nat)).take k,
            bodyStreamed := true,
            sourceCancelled := true } :=
  ⟨by decide, by decide,
   C5_streamed_size_cap { contentLengthLimit := some 5 }
     { ok := true, status := 200, statusText := "OK" } [[1, 1, 1], [2, 2, 2]]
     (by decide) (by decide)⟩

/-- C6: a declared `Content-Length` parsing to a number greater than the
configured maximum fails the call with a declared-size-exceeded error before
any body chunk is consumed; an absent `Content-Length` with
`contentLengthRequired` set fails with a missing-content-length error, also
before any body chunk is consumed. -/
theorem C6_declared_length_checks (args : GotArgs) (res : ResponseMeta)
    (chunks : List (List Nat))
    (hok : res.ok = true)
    (hft : typeFilterRejects args.typeFilter res.contentType = false) :
    (∀ (cl : String) (n : Nat), res.contentLength = some cl →
      jsNumber cl = some n →
      args.contentLengthLimit.getD DEFAULT_MAX_RESPONSE_SIZE < n →
      getResponseRun args res chunks =
        { error := some (.sizeExceededDeclared n
            (args.contentLengthLimit.getD DEFAULT_MAX_RESPONSE_SIZE)),
          delivered := [], bodyStreamed := false, sourceCancelled := true })
    ∧ (res.contentLength = none → args.contentLengthRequired = true →
      getResponseRun args res chunks =
        { error := some .contentLengthMissing, delivered := [],
          bodyStreamed := false, sourceCancelled := true }) := by
  constructor
  · intro cl n hcl hn hgt
    have hne : cl.data ≠ [] := jsNumber_data_ne_nil cl n hn
    simp [getResponseRun, checkResponse, hok, hft, hcl, hne, hn,
      declaredExceeds, hgt]
  · intro hcl hreq
    simp [getResponseRun, checkResponse, hok, hft, hcl, hreq]

/-- Witness for C6: declared length `"6"` against limit 5 fails before the
body; absent length with the required flag fails likewise. -/
theorem C6_declared_length_checks_witness :
    getResponseRun { contentLengthLimit := some 5 }
      { ok := true, status := 200, statusText := "OK", contentLength := some "6" }
      [[1]] =
      { error := some (.sizeExceededDeclared 6 5), delivered := [],
        bodyStreamed := false, sourceCancelled := true }
    ∧ getResponseRun { contentLengthRequired := true }
      { ok := true, status := 200, statusText := "OK" } [[1]] =
      { error := some .contentLengthMissing, delivered := [],
        bodyStreamed := false, sourceCancelled := true } :=
  ⟨(C6_declared_length_checks { contentLengthLimit := some 5 }
      { ok := true, status := 200, statusText := "OK", contentLength := some "6" }
      [[1]] (by decide) (by decide)).1 "6" 6 rfl (by decide) (by decide),
   (C6_declared_length_checks { contentLengthRequired := true }
      { ok := true, status := 200, statusText := "OK" }
      [[1]] (by decide) (by decide)).2 rfl rfl⟩

/-- C8: a response whose `Content-Type` does not match the configured filter
(including an absent header) fails with a type-rejected error and the body is
never handed to the downstream stripper. -/
theorem C8_type_filter_rejection (args : GotArgs) (res : ResponseMeta)
    (chunks : List (List Nat))
    (hok : res.ok = true)
    (hft : typeFilterRejects args.typeFilter res.contentType = true) :
    getResponseRun args res chunks =
      { error := some (.typeRejected res.contentType), delivered := [],
        bodyStreamed := false, sourceCancelled := true } := by
  simp [getResponseRun, checkResponse, hok, hft]

/-- Witness for C8: an HTML-only filter rejects `application/json` with no
body streamed. -/
theorem C8_type_filter_rejection_witness :
    getResponseRun { typeFilter := some fun s => decide (s = "text/html") }
      { ok := true, status := 200, statusText := "OK",
        contentType := some "application/json" } [[1]] =
      { error := some (.typeRejected (some "application/json")), delivered := [],
        bodyStreamed := false, sourceCancelled := true } :=
  C8_type_filter_rejection { typeFilter := some fun s => decide (s = "text/html") }
    { ok := true, status := 200, statusText := "OK",
      contentType := some "application/json" } [[1]] rfl rfl

/-- C10: a non-empty `Content-Length` header that does not parse as a number
is NaN, the comparison against the maximum is false, the declared-size check
passes, and only the streamed cumulative-byte cap still bounds the
transfer. -/
theorem C10_nan_content_length (args : GotArgs) (res : ResponseMeta)
    (chunks : List (List Nat))
    (hok : res.ok = true)
    (hft : typeFilterRejects args.typeFilter res.contentType = false)
    (cl : String) (hcl : res.contentLength = some cl)
    (hne : cl.data ≠ []) (hnan : jsNumber cl = none) :
    checkResponse args res = none
    ∧ getResponseRun args res chunks =
        { error := (runSizeGuard (args.contentLengthLimit.getD DEFAULT_MAX_RESPONSE_SIZE) 0 chunks).error,
          delivered := (runSizeGuard (args.contentLengthLimit.getD DEFAULT_MAX_RESPONSE_SIZE) 0 chunks).delivered,
          bodyStreamed := true,
          sourceCancelled := (runSizeGuard (args.contentLengthLimit.getD DEFAULT_MAX_RESPONSE_SIZE) 0 chunks).sourceCancelled }
    ∧ (args.contentLengthLimit.getD DEFAULT_MAX_RESPONSE_SIZE < cumLen chunks →
        ∃ k, args.contentLengthLimit.getD DEFAULT_MAX_RESPONSE_SIZE <
            cumLen (chunks.take (k+1))
          ∧ (getResponseRun args res chunks).error =
            some (.sizeExceededStreamed (cumLen (chunks.take (k+1)))
              (args.contentLengthLimit.getD DEFAULT_MAX_RESPONSE_SIZE))) := by
  have h1 : checkResponse args res = none := by
    simp [checkResponse, hok, hft, hcl, hne, hnan, declaredExceeds]
  refine ⟨h1, by simp [getResponseRun, h1], fun hover => ?_⟩
  obtain ⟨k, _, _, hk3, hk4⟩ :=
    runSizeGuard_overflow (args.contentLengthLimit.getD DEFAULT_MAX_RESPONSE_SIZE)
      chunks 0 (Nat.zero_le _) (by simpa)
  refine ⟨k, by simpa using hk3, ?_⟩
  simp [getResponseRun, h1, hk4]

/-- Witness for C10: `Content-Length: abc` passes the declared-size check at
limit 5, and the streamed cap then errors the oversized body. -/
theorem C10_nan_content_length_witness :
    checkResponse { contentLengthLimit := some 5 }
      { ok := true, status := 200, statusText := "OK", contentLength := some "abc" } = none :=
  (C10_nan_content_length { contentLengthLimit := some 5 }
    { ok := true, status := 200, statusText := "OK", contentLength := some "abc" }
    [[1, 1, 1], [2, 2, 2]] (by decide) (by decide) "abc" rfl (by decide)
    (by decide)).1

/-- C1 (evidence of the divergence): with the default 20 s response and 60 s
operation timeouts, a server that sends the headers at t=0 and then stalls
the body forever leaves the call hanging with no timeout error — `getResponse`
cleared the operation timer when it returned the header wrapper, before the
lazy body was consumed — and a body that takes 10^9 ms still completes with
no timeout, far past the configured 60 s operation deadline. -/
theorem C1_stalled_body_never_times_out :
    getResponseCall 20000 60000 { headersAt := 0, bodyDoneAt := none } true =
      .hangs
    ∧ getResponseCall 20000 60000
        { headersAt := 0, bodyDoneAt := some 1000000000 } true =
      .completedAt 1000000000 := by
  decide

/-- C9 (evidence of the divergence): `summaly` merges each call's options
into the shared module-level `summalyDefaultOptions` object, so a second call
passing no options runs with the first call's `lang` — its effective options
differ from the same call made on a fresh module, refuting independence of
calls. -/
theorem C9_shared_defaults_leak :
    effectiveOptsOfCalls [{ lang := some (some "ja") }, {}] =
      [{ lang := some "ja", followRedirects := true, userAgent := none },
       { lang := some "ja", followRedirects := true, userAgent := none }]
    ∧ effectiveOptsOfCalls [{}] =
      [{ lang := none, followRedirects := true, userAgent := none }]
    ∧ (effectiveOptsOfCalls [{ lang := some (some "ja") }, {}]).getLast? ≠
      (effectiveOptsOfCalls [{}]).getLast? := by
  decide

end Summaly
